import Mathlib

/-!
Verification of the YewChat chat-room client core
(`src/YewChat/src/components/chat.rs`).

We shallowly embed the wire protocol (serde-style JSON decode/encode of
`WebSocketMessage` and `MessageData`), the chat state machine
(`Chat::update` with its `Msg::HandleMsg` and `Msg::SubmitMessage` arms),
and the per-message view projection (`Chat::view`).

A Rust panic (a failing `.unwrap()`) is modelled as `none`: the handler
functions return `Option` results, where `none` means the original code
panics at that point and `some` carries the updated state together with
the `bool` that `update` returns (the re-render request).
-/

/-- JSON values, the model of `serde_json::Value` as far as this protocol
needs it.  Numbers are kept as integers: the protocol carries no numeric
field, so fractional precision is irrelevant to every decoded frame. -/
inductive Json where
  | null : Json
  | bool : Bool → Json
  | num : Int → Json
  | str : String → Json
  | arr : List Json → Json
  | obj : List (String × Json) → Json
deriving Inhabited

/-- The `\x7b` character. -/
def lbrace : Char := Char.ofNat 123

/-- The `\x7d` character. -/
def rbrace : Char := Char.ofNat 125

/-- JSON whitespace by code point: space (32), line feed (10),
horizontal tab (9), carriage return (13). -/
def isWsChar (c : Char) : Bool :=
  [32, 10, 9, 13].contains c.toNat

/-- Skip leading JSON whitespace. -/
def skipWs : List Char → List Char
  | [] => []
  | c :: cs => if isWsChar c then skipWs cs else c :: cs

/-- Hexadecimal digit value, for `\uXXXX` escapes, by code point: digits
are 48–57, lower-case a–f are 97–102, upper-case A–F are 65–70. -/
def hexVal (c : Char) : Option Nat :=
  let n := c.toNat
  if n ≥ 48 && n ≤ 57 then some (n - 48)
  else if n ≥ 97 && n ≤ 102 then some (n - 87)
  else if n ≥ 65 && n ≤ 70 then some (n - 55)
  else none

/-- Parse the body of a JSON string (after the opening quote), returning
the decoded string and the input remaining after the closing quote. -/
def parseStringBody : List Char → Option (List Char × List Char)
  | [] => none
  | '"' :: cs => some ([], cs)
  | '\\' :: cs =>
    match cs with
    | [] => none
    | 'u' :: a :: b :: c :: d :: cs' =>
      match hexVal a, hexVal b, hexVal c, hexVal d with
      | some ha, some hb, some hc, some hd =>
        match parseStringBody cs' with
        | some (tail, rest) =>
          some (Char.ofNat (((ha * 16 + hb) * 16 + hc) * 16 + hd) :: tail, rest)
        | none => none
      | _, _, _, _ => none
    | e :: cs' =>
      let dec : Option Char :=
        if e == '"' then some '"'
        else if e == '\\' then some '\\'
        else if e == '/' then some '/'
        else if e == 'b' then some (Char.ofNat 8)
        else if e == 'f' then some (Char.ofNat 12)
        else if e == 'n' then some '\n'
        else if e == 'r' then some '\r'
        else if e == 't' then some '\t'
        else none
      match dec with
      | some c =>
        match parseStringBody cs' with
        | some (tail, rest) => some (c :: tail, rest)
        | none => none
      | none => none
  | c :: cs =>
    match parseStringBody cs with
    | some (tail, rest) => some (c :: tail, rest)
    | none => none

/-- Parse a run of decimal digits, returning its value, its length and
the remaining input. -/
def parseDigits : List Char → Nat → Nat → (Nat × Nat × List Char)
  | [], acc, len => (acc, len, [])
  | c :: cs, acc, len =>
    if '0' ≤ c && c ≤ '9' then
      parseDigits cs (acc * 10 + (c.toNat - '0'.toNat)) (len + 1)
    else (acc, len, c :: cs)

/-- Consume an optional fraction and exponent part of a JSON number.
The value carried by `Json.num` keeps only the integer part, which is
enough for this protocol: no decoded field is numeric. -/
def skipNumTail (cs : List Char) : List Char :=
  let afterFrac :=
    match cs with
    | '.' :: cs' => (parseDigits cs' 0 0).2.2
    | _ => cs
  match afterFrac with
  | 'e' :: cs' =>
    (parseDigits (match cs' with | '+' :: t => t | '-' :: t => t | t => t) 0 0).2.2
  | 'E' :: cs' =>
    (parseDigits (match cs' with | '+' :: t => t | '-' :: t => t | t => t) 0 0).2.2
  | _ => afterFrac

mutual

/-- Fuel-indexed recursive-descent parser for a JSON value. -/
def parseValue : Nat → List Char → Option (Json × List Char)
  | 0, _ => none
  | fuel + 1, cs =>
    match skipWs cs with
    | [] => none
    | c :: cs' =>
      if c == lbrace then
        match skipWs cs' with
        | c' :: cs'' =>
          if c' == rbrace then some (Json.obj [], cs'')
          else parseMembers fuel (c' :: cs'') []
        | [] => none
      else if c == '[' then
        match skipWs cs' with
        | ']' :: cs'' => some (Json.arr [], cs'')
        | rest => parseElems fuel rest []
      else if c == '"' then
        match parseStringBody cs' with
        | some (body, rest) => some (Json.str (String.mk body), rest)
        | none => none
      else if c == 't' then
        match cs' with
        | 'r' :: 'u' :: 'e' :: rest => some (Json.bool true, rest)
        | _ => none
      else if c == 'f' then
        match cs' with
        | 'a' :: 'l' :: 's' :: 'e' :: rest => some (Json.bool false, rest)
        | _ => none
      else if c == 'n' then
        match cs' with
        | 'u' :: 'l' :: 'l' :: rest => some (Json.null, rest)
        | _ => none
      else if c == '-' then
        match parseDigits cs' 0 0 with
        | (_, 0, _) => none
        | (v, _ + 1, rest) => some (Json.num (-(v : Int)), skipNumTail rest)
      else if '0' ≤ c && c ≤ '9' then
        match parseDigits (c :: cs') 0 0 with
        | (v, _, rest) => some (Json.num (v : Int), skipNumTail rest)
      else none

/-- Parse the members of a JSON object, accumulating decoded fields. -/
def parseMembers : Nat → List Char → List (String × Json) →
    Option (Json × List Char)
  | 0, _, _ => none
  | fuel + 1, cs, acc =>
    match skipWs cs with
    | '"' :: cs' =>
      match parseStringBody cs' with
      | some (key, afterKey) =>
        match skipWs afterKey with
        | ':' :: afterColon =>
          match parseValue fuel afterColon with
          | some (v, afterVal) =>
            let acc' := acc ++ [(String.mk key, v)]
            match skipWs afterVal with
            | c :: rest =>
              if c == ',' then parseMembers fuel rest acc'
              else if c == rbrace then some (Json.obj acc', rest)
              else none
            | [] => none
          | none => none
        | _ => none
      | none => none
    | _ => none

/-- Parse the elements of a JSON array, accumulating decoded values. -/
def parseElems : Nat → List Char → List Json → Option (Json × List Char)
  | 0, _, _ => none
  | fuel + 1, cs, acc =>
    match parseValue fuel cs with
    | some (v, afterVal) =>
      let acc' := acc ++ [v]
      match skipWs afterVal with
      | ',' :: rest => parseElems fuel rest acc'
      | ']' :: rest => some (Json.arr acc', rest)
      | _ => none
    | none => none

end

/-- `serde_json::from_str` at the value level: parse a whole string as a
single JSON value, requiring all input (up to trailing whitespace) to be
consumed. -/
def parseJson (s : String) : Option Json :=
  match parseValue (s.length + 1) s.toList with
  | some (j, rest) => if skipWs rest = [] then some j else none
  | none => none

/-- The frame discriminant (`MsgTypes` in chat.rs, serde
`rename_all = "lowercase"`). -/
inductive MsgTypes where
  | Users : MsgTypes
  | Register : MsgTypes
  | Message : MsgTypes
deriving DecidableEq

/-- The wire frame (`WebSocketMessage` in chat.rs, serde
`rename_all = "camelCase"`): discriminant plus two optional payloads. -/
structure WebSocketMessage where
  message_type : MsgTypes
  data_array : Option (List String)
  data : Option String
deriving DecidableEq

/-- The decoded inner payload of a `Message` frame (`MessageData` in
chat.rs). -/
structure MessageData where
  «from» : String
  message : String
deriving DecidableEq

/-- A roster entry (`UserProfile` in chat.rs). -/
structure UserProfile where
  name : String
  avatar : String
deriving DecidableEq

/-- The state owned by the `Chat` component that the claims are about:
the roster (`users`) and the message log (`messages`). -/
structure ChatState where
  users : List UserProfile
  messages : List MessageData
deriving DecidableEq

/-- First-occurrence field lookup in a decoded JSON object. -/
def lookupField (fields : List (String × Json)) (key : String) : Option Json :=
  match fields with
  | [] => none
  | (k, v) :: rest => if k = key then some v else lookupField rest key

/-- serde decode of the `MsgTypes` discriminant: a lower-cased string. -/
def decodeMsgTypes : Json → Option MsgTypes
  | Json.str s =>
    if s = "users" then some MsgTypes.Users
    else if s = "register" then some MsgTypes.Register
    else if s = "message" then some MsgTypes.Message
    else none
  | _ => none

/-- serde decode of a JSON value expected to be a string. -/
def asString : Json → Option String
  | Json.str s => some s
  | _ => none

/-- serde decode of an `Option` field: absent or `null` is `none`;
present with the wrong shape is a decode error. -/
def decodeOptField (decodeElem : Json → Option α)
    (fields : List (String × Json)) (key : String) : Option (Option α) :=
  match lookupField fields key with
  | none => some none
  | some Json.null => some none
  | some v =>
    match decodeElem v with
    | some x => some (some x)
    | none => none

/-- All-or-nothing decode of a list of JSON values as strings. -/
def decodeStringListAux : List Json → Option (List String)
  | [] => some []
  | j :: rest =>
    match asString j, decodeStringListAux rest with
    | some s, some ss => some (s :: ss)
    | _, _ => none

/-- serde decode of a `Vec<String>` payload. -/
def decodeStringList : Json → Option (List String)
  | Json.arr xs => decodeStringListAux xs
  | _ => none

/-- serde decode of `WebSocketMessage` from a JSON value: requires an
object with a recognized `messageType` string; `dataArray` and `data`
are optional but must have the right shape when present; unknown fields
are ignored (serde default). -/
def decodeWebSocketMessage (j : Json) : Option WebSocketMessage :=
  match j with
  | Json.obj fields =>
    match lookupField fields "messageType" with
    | none => none
    | some mt =>
      match decodeMsgTypes mt with
      | none => none
      | some message_type =>
        match decodeOptField decodeStringList fields "dataArray" with
        | none => none
        | some data_array =>
          match decodeOptField asString fields "data" with
          | none => none
          | some data => some ⟨message_type, data_array, data⟩
  | _ => none

/-- serde encode of the discriminant. -/
def msgTypesStr : MsgTypes → String
  | MsgTypes.Users => "users"
  | MsgTypes.Register => "register"
  | MsgTypes.Message => "message"

/-- serde encode of `WebSocketMessage` to a JSON value
(`serde_json::to_string` before printing): fields in declaration order,
`None` serialized as `null`. -/
def encodeWebSocketMessage (m : WebSocketMessage) : Json :=
  Json.obj
    [("messageType", Json.str (msgTypesStr m.message_type)),
     ("dataArray",
       match m.data_array with
       | none => Json.null
       | some xs => Json.arr (xs.map Json.str)),
     ("data",
       match m.data with
       | none => Json.null
       | some s => Json.str s)]

/-- serde decode of `MessageData` from a JSON value: both `from` and
`message` are required string fields. -/
def decodeMessageDataJson (j : Json) : Option MessageData :=
  match j with
  | Json.obj fields =>
    match lookupField fields "from" with
    | some (Json.str f) =>
      match lookupField fields "message" with
      | some (Json.str msg) => some ⟨f, msg⟩
      | _ => none
    | _ => none
  | _ => none

/-- `serde_json::from_str::<MessageData>` on the inner string payload of
a `Message` frame. -/
def decodeMessageData (s : String) : Option MessageData :=
  match parseJson s with
  | some j => decodeMessageDataJson j
  | none => none

/-- `serde_json::from_str::<WebSocketMessage>` on an inbound raw text
frame. -/
def decodeFrame (raw : String) : Option WebSocketMessage :=
  match parseJson raw with
  | some j => decodeWebSocketMessage j
  | none => none

/-- The fixed avatar template applied to a username
(`format!("https://avatars.dicebear.com/api/adventurer-neutral/\x7b\x7d.svg", u)`). -/
def avatarUrl (u : String) : String :=
  "https://avatars.dicebear.com/api/adventurer-neutral/" ++ u ++ ".svg"

/-- The roster entry built from one name in a `Users` frame. -/
def mkProfile (u : String) : UserProfile :=
  ⟨u, avatarUrl u⟩

/-- Dispatch of a decoded frame, the body of the `Msg::HandleMsg` arm of
`Chat::update` after the outer decode.  Returns `none` where the Rust
code panics (`msg.data.unwrap()` on an absent `data`, and the `.unwrap()`
on the inner `serde_json::from_str`); otherwise returns the new state and
the `bool` that `update` returns. -/
def handleFrame (msg : WebSocketMessage) (st : ChatState) :
    Option (ChatState × Bool) :=
  match msg.message_type with
  | MsgTypes.Users =>
    let users_from_message := msg.data_array.getD []
    some ({ st with users := users_from_message.map mkProfile }, true)
  | MsgTypes.Message =>
    match msg.data with
    | none => none
    | some d =>
      match decodeMessageData d with
      | none => none
      | some message_data =>
        some ({ st with messages := st.messages ++ [message_data] }, true)
  | MsgTypes.Register => some (st, false)

/-- The `Msg::HandleMsg(s)` arm of `Chat::update`: decode the raw text
(`serde_json::from_str(&s).unwrap()` — `none` models the panic on a
decode failure), then dispatch on the discriminant. -/
def handleMsg (s : String) (st : ChatState) : Option (ChatState × Bool) :=
  match decodeFrame s with
  | none => none
  | some msg => handleFrame msg st

/-- Run a sequence of inbound raw frames through `handleMsg`,
propagating a panic. -/
def runFrames (frames : List String) (st : ChatState) : Option ChatState :=
  match frames with
  | [] => some st
  | r :: rest =>
    match handleMsg r st with
    | none => none
    | some (st', _) => runFrames rest st'

/-- A raw text that decodes to a `Message` frame whose inner payload
also decodes: exactly the frames the `Msg::HandleMsg` arm appends to the
log without panicking. -/
def validMessageFrame (raw : String) : Bool :=
  match decodeFrame raw with
  | some msg =>
    match msg.message_type, msg.data with
    | MsgTypes.Message, some d => (decodeMessageData d).isSome
    | _, _ => false
  | none => false

/-- The `MessageData` a valid `Message` frame carries. -/
def decodeChat (raw : String) : Option MessageData :=
  match decodeFrame raw with
  | some msg =>
    match msg.message_type, msg.data with
    | MsgTypes.Message, some d => decodeMessageData d
    | _, _ => none
  | none => none

/-- Result of the `Msg::SubmitMessage` arm of `Chat::update`: the frames
handed to `wss.tx.try_send` (as decoded values; serialization always
succeeds), whether a send error was logged, the input element's value
afterwards (`none` when the `NodeRef` cast produced no element), and the
`bool` that `update` returns. -/
structure SubmitResult where
  sent : List WebSocketMessage
  errorLogged : Bool
  input : Option String
  shouldRender : Bool
deriving DecidableEq

/-- The `Msg::SubmitMessage` arm of `Chat::update`.  `input` is the
current value of the chat input element (`none` when the cast fails),
`sendOk` the outcome of `try_send`.  The component state is returned
unchanged: the arm never touches `self.users` or `self.messages`. -/
def submitMessage (st : ChatState) (input : Option String) (sendOk : Bool) :
    ChatState × SubmitResult :=
  match input with
  | none => (st, ⟨[], false, none, false⟩)
  | some v =>
    let message : WebSocketMessage := ⟨MsgTypes.Message, none, some v⟩
    (st, ⟨[message], !sendOk, some "", false⟩)

/-- The per-message body rendering in `Chat::view`: an inline `<img>`
when the body ends with `".gif"`, literal text otherwise. -/
inductive Rendered where
  | image : String → Rendered
  | text : String → Rendered
deriving DecidableEq

/-- `str::ends_with`: a pure suffix match on the character sequence. -/
def ends_with (s pat : String) : Bool :=
  List.isSuffixOf pat.toList s.toList

/-- `str::trim` at the character level: strip leading and trailing
whitespace.  Used only to state the spec's "empty after trim"
condition — the submit arm itself never calls it. -/
def trimWs (s : String) : String :=
  String.mk
    (((s.toList.dropWhile fun c => c.isWhitespace).reverse.dropWhile
      fun c => c.isWhitespace).reverse)

/-- The `.gif`-suffix presentation rule applied to a message body
(`m.message.ends_with(".gif")` in `Chat::view`). -/
def renderBody (m : MessageData) : Rendered :=
  if ends_with m.message ".gif" then Rendered.image m.message
  else Rendered.text m.message

/-- The per-message projection of `Chat::view`: look the sender up in
the roster; when found, render the bubble (avatar URL, sender name,
body); when not found, the view emits empty markup (`html!\x7b\x7d`),
modelled as `none`. -/
def renderMessage (users : List UserProfile) (m : MessageData) :
    Option (String × String × Rendered) :=
  match users.find? (fun u => u.name == m.«from») with
  | some u => some (u.avatar, m.«from», renderBody m)
  | none => none

/-- The message-log region of `Chat::view`: the per-message projection
mapped over the log in order. -/
def renderLog (st : ChatState) : List (Option (String × String × Rendered)) :=
  st.messages.map (renderMessage st.users)

/-- C4: after two `Users` frames in sequence, the roster equals exactly
the second frame's decoded name list, in order, each name mapped through
the fixed avatar template; nothing from the first frame survives, and
the log is untouched. -/
theorem users_frame_replaces_roster (st : ChatState) (r1 r2 : String)
    (m1 m2 : WebSocketMessage) (l1 l2 : List String)
    (h1 : decodeFrame r1 = some m1) (ht1 : m1.message_type = MsgTypes.Users)
    (hd1 : m1.data_array = some l1)
    (h2 : decodeFrame r2 = some m2) (ht2 : m2.message_type = MsgTypes.Users)
    (hd2 : m2.data_array = some l2) :
    ∃ st1 st2,
      handleMsg r1 st = some (st1, true) ∧
      handleMsg r2 st1 = some (st2, true) ∧
      st2.users = l2.map (fun u => UserProfile.mk u (avatarUrl u)) ∧
      st2.messages = st1.messages := by
  refine ⟨{ st with users := l1.map mkProfile },
    { st with users := l2.map mkProfile }, ?_, ?_, ?_, rfl⟩
  · simp [handleMsg, h1, handleFrame, ht1, hd1]
  · simp [handleMsg, h2, handleFrame, ht2, hd2]
  · simp [mkProfile]

/-- Witness for C4 at two concrete `Users` frames. -/
theorem users_frame_replaces_roster_witness :
    ∃ st1 st2,
      handleMsg "\x7b\"messageType\":\"users\",\"dataArray\":[\"alice\"]\x7d"
        ⟨[], []⟩ = some (st1, true) ∧
      handleMsg "\x7b\"messageType\":\"users\",\"dataArray\":[\"bob\",\"carol\"]\x7d"
        st1 = some (st2, true) ∧
      st2.users = ["bob", "carol"].map (fun u => UserProfile.mk u (avatarUrl u)) ∧
      st2.messages = st1.messages :=
  users_frame_replaces_roster ⟨[], []⟩
    "\x7b\"messageType\":\"users\",\"dataArray\":[\"alice\"]\x7d"
    "\x7b\"messageType\":\"users\",\"dataArray\":[\"bob\",\"carol\"]\x7d"
    ⟨MsgTypes.Users, some ["alice"], none⟩
    ⟨MsgTypes.Users, some ["bob", "carol"], none⟩
    ["alice"] ["bob", "carol"] (by rfl) rfl rfl (by rfl) rfl rfl

/-- C10: an inbound frame that decodes with discriminant `Register` is a
no-op: the state is returned unchanged and `update` returns `false` (no
re-render), without panicking. -/
theorem register_frame_noop (raw : String) (st : ChatState)
    (msg : WebSocketMessage)
    (h : decodeFrame raw = some msg)
    (ht : msg.message_type = MsgTypes.Register) :
    handleMsg raw st = some (st, false) := by
  simp [handleMsg, h, handleFrame, ht]

/-- Witness for C10 at a concrete `Register` frame and non-empty state. -/
theorem register_frame_noop_witness :
    handleMsg "\x7b\"messageType\":\"register\",\"data\":\"dave\"\x7d"
      ⟨[mkProfile "alice"], [⟨"alice", "hi"⟩]⟩ =
      some (⟨[mkProfile "alice"], [⟨"alice", "hi"⟩]⟩, false) :=
  register_frame_noop _ _ ⟨MsgTypes.Register, none, some "dave"⟩ (by rfl) rfl

/-- C9: a rendered message is an inline image reference exactly when its
body ends with the fixed suffix `".gif"`; any other body (including one
ending in `".png"`) is rendered as literal text.  The rule is a pure
string suffix match on the body. -/
theorem gif_suffix_rendering (users : List UserProfile) (m : MessageData)
    (a n : String) (r : Rendered)
    (h : renderMessage users m = some (a, n, r)) :
    (r = Rendered.image m.message ↔ ends_with m.message ".gif" = true) ∧
    (ends_with m.message ".gif" = false → r = Rendered.text m.message) := by
  have hr : r = renderBody m := by
    unfold renderMessage at h
    cases hf : users.find? (fun u => u.name == m.«from») with
    | none => rw [hf] at h; exact absurd h (by simp)
    | some u => rw [hf] at h; simp at h; exact h.2.2.symm
  subst hr
  unfold renderBody
  cases hg : ends_with m.message ".gif" <;> simp [hg]

/-- Witness for C9 at a `.gif` body rendered through a matching roster
entry. -/
theorem gif_suffix_rendering_witness :
    ((Rendered.image "http://x/y.gif" = Rendered.image "http://x/y.gif" ↔
      ends_with "http://x/y.gif" ".gif" = true) ∧
     (ends_with "http://x/y.gif" ".gif" = false →
      Rendered.image "http://x/y.gif" = Rendered.text "http://x/y.gif")) :=
  gif_suffix_rendering [mkProfile "alice"] ⟨"alice", "http://x/y.gif"⟩
    (avatarUrl "alice") "alice" (Rendered.image "http://x/y.gif") (by rfl)

/-- C1 counterexample: on the malformed inbound text `"bogus"` the
handler does not drop the update and return the prior state — it panics
(`serde_json::from_str(&s).unwrap()`), modelled as `none`. -/
theorem malformed_frame_panics_cex :
    handleMsg "bogus" ⟨[], []⟩ = none ∧
    ¬ ∃ st' b, handleMsg "bogus" ⟨[], []⟩ = some (st', b) := by
  refine ⟨by rfl, ?_⟩
  rintro ⟨st', b, hcontra⟩
  rw [show handleMsg "bogus" ⟨[], []⟩ = none from rfl] at hcontra
  exact Option.noConfusion hcontra

/-- C1 amended: on malformed outer JSON, an unrecognized discriminant,
or a `Message` frame whose `data` is absent or not valid inner JSON, the
frame handler panics on the unwrapped decode error (it does not drop the
update and continue); no mutation of roster or log is applied before the
panic. -/
theorem malformed_frame_panics (raw : String) (st : ChatState)
    (h : decodeFrame raw = none ∨
      ∃ msg, decodeFrame raw = some msg ∧
        msg.message_type = MsgTypes.Message ∧
        msg.data.bind decodeMessageData = none) :
    handleMsg raw st = none := by
  rcases h with h | ⟨msg, hd, ht, hb⟩
  · simp [handleMsg, h]
  · cases hdata : msg.data with
    | none => simp [handleMsg, hd, handleFrame, ht, hdata]
    | some d =>
      rw [hdata] at hb
      simp only [Option.some_bind] at hb
      simp [handleMsg, hd, handleFrame, ht, hdata, hb]

/-- Witness for C1 amended: a `Message` frame with no `data` payload
panics. -/
theorem malformed_frame_panics_witness :
    handleMsg "\x7b\"messageType\":\"message\"\x7d" ⟨[], []⟩ = none :=
  malformed_frame_panics _ _
    (Or.inr ⟨⟨MsgTypes.Message, none, none⟩, by rfl, rfl, rfl⟩)

/-- C2 counterexample: submitting an empty input buffer does send an
outbound frame (the code has no trim/empty check) — one `Message` frame
whose `data` is the empty string; likewise for a whitespace-only
buffer. -/
theorem empty_submit_sends_cex :
    (submitMessage ⟨[], []⟩ (some "") true).2.sent =
      [⟨MsgTypes.Message, none, some ""⟩] ∧
    (submitMessage ⟨[], []⟩ (some "   ") true).2.sent =
      [⟨MsgTypes.Message, none, some "   "⟩] ∧
    ¬ (submitMessage ⟨[], []⟩ (some "") true).2.sent = [] := by
  refine ⟨rfl, rfl, ?_⟩
  intro hcontra
  exact List.noConfusion hcontra

/-- C2 amended: submitting an input buffer that is empty or
whitespace-only still builds and sends exactly one `Message` frame whose
`data` is the raw buffer contents; roster and log are unchanged and the
input buffer is cleared. -/
theorem empty_submit_sends_frame (st : ChatState) (v : String)
    (sendOk : Bool) (_h : trimWs v = "") :
    submitMessage st (some v) sendOk =
      (st, ⟨[⟨MsgTypes.Message, none, some v⟩], !sendOk, some "", false⟩) := rfl

/-- Witness for C2 amended at a whitespace-only buffer. -/
theorem empty_submit_sends_frame_witness :
    (trimWs "   " = "") ∧
    submitMessage ⟨[], []⟩ (some "   ") true =
      (⟨[], []⟩, ⟨[⟨MsgTypes.Message, none, some "   "⟩], false, some "", false⟩) :=
  ⟨by rfl, empty_submit_sends_frame ⟨[], []⟩ "   " true (by rfl)⟩

/-- C3 counterexample: submitting `"hello"` sends exactly one `Message`
frame, but its `data` is the raw text `"hello"`, which does not
JSON-decode to a `from`/`message` object (the code never wraps the text
in an inner payload). -/
theorem submit_payload_cex :
    (submitMessage ⟨[], []⟩ (some "hello") true).2.sent =
      [⟨MsgTypes.Message, none, some "hello"⟩] ∧
    decodeMessageData "hello" = none ∧
    ¬ ∃ md, decodeMessageData "hello" = some md := by
  refine ⟨rfl, rfl, ?_⟩
  rintro ⟨md, hcontra⟩
  rw [show decodeMessageData "hello" = none from rfl] at hcontra
  exact Option.noConfusion hcontra

/-- C3 amended: for every submit with a non-empty input buffer, exactly
one outbound `Message` frame is sent and its `data` is the raw submitted
text (not a JSON object carrying `from`/`message` fields); the state is
untouched and the input buffer is cleared regardless of whether the send
succeeds or fails. -/
theorem submit_sends_raw_text (st : ChatState) (v : String)
    (sendOk : Bool) (_h : v ≠ "") :
    (submitMessage st (some v) sendOk).1 = st ∧
    (submitMessage st (some v) sendOk).2.sent =
      [⟨MsgTypes.Message, none, some v⟩] ∧
    (submitMessage st (some v) sendOk).2.input = some "" ∧
    (submitMessage st (some v) true).2.input =
      (submitMessage st (some v) false).2.input :=
  ⟨rfl, rfl, rfl, rfl⟩

/-- Witness for C3 amended at the buffer `"hello"` with a failing
send. -/
theorem submit_sends_raw_text_witness :
    (submitMessage ⟨[], []⟩ (some "hello") false).1 = (⟨[], []⟩ : ChatState) ∧
    (submitMessage ⟨[], []⟩ (some "hello") false).2.sent =
      [⟨MsgTypes.Message, none, some "hello"⟩] ∧
    (submitMessage ⟨[], []⟩ (some "hello") false).2.input = some "" ∧
    (submitMessage ⟨[], []⟩ (some "hello") true).2.input =
      (submitMessage ⟨[], []⟩ (some "hello") false).2.input :=
  submit_sends_raw_text ⟨[], []⟩ "hello" false (by decide)

/-- C6 counterexample: an inbound `Users` frame with `dataArray` absent
decodes successfully (`Option` fields default to `None`; no
`ProtocolError`), and the handler replaces a non-empty roster with the
empty roster (`unwrap_or_default`), so the roster does not stay
unchanged. -/
theorem users_missing_dataarray_cex :
    (decodeFrame "\x7b\"messageType\":\"users\"\x7d").isSome = true ∧
    handleMsg "\x7b\"messageType\":\"users\"\x7d" ⟨[mkProfile "alice"], []⟩ =
      some (⟨[], []⟩, true) ∧
    ¬ ([mkProfile "alice"] : List UserProfile) = [] := by
  refine ⟨rfl, rfl, ?_⟩
  intro hcontra
  exact List.noConfusion hcontra

/-- C6 amended: an inbound `Users` frame whose `dataArray` field is
absent decodes successfully with `dataArray = None`; the handler treats
the missing payload as the empty list and replaces the roster with the
empty roster, returning `true`. -/
theorem users_missing_dataarray (raw : String) (st : ChatState)
    (msg : WebSocketMessage)
    (h : decodeFrame raw = some msg)
    (ht : msg.message_type = MsgTypes.Users)
    (hd : msg.data_array = none) :
    handleMsg raw st = some ({ st with users := [] }, true) := by
  simp [handleMsg, h, handleFrame, ht, hd]

/-- Witness for C6 amended at a concrete `Users` frame without
`dataArray`. -/
theorem users_missing_dataarray_witness :
    handleMsg "\x7b\"messageType\":\"users\"\x7d" ⟨[mkProfile "alice"], []⟩ =
      some (⟨[], []⟩, true) :=
  users_missing_dataarray _ ⟨[mkProfile "alice"], []⟩
    ⟨MsgTypes.Users, none, none⟩ (by rfl) rfl rfl

/-- C7 counterexample: a logged message whose sender has no roster entry
is not rendered at all — the view emits empty markup for it
(`renderMessage` is `none`), rather than rendering it without identity
decoration. -/
theorem unknown_sender_omitted_cex :
    renderMessage [] ⟨"alice", "hi"⟩ = none ∧
    renderLog ⟨[], [⟨"alice", "hi"⟩]⟩ = [none] ∧
    ¬ ∃ out, renderMessage [] ⟨"alice", "hi"⟩ = some out := by
  refine ⟨rfl, rfl, ?_⟩
  rintro ⟨out, hcontra⟩
  rw [show renderMessage [] (⟨"alice", "hi"⟩ : MessageData) = none from rfl]
    at hcontra
  exact Option.noConfusion hcontra

/-- C7 amended: a `ChatMessage` whose sender has no matching roster
entry is retained in the log, but the view projection omits it entirely
from the rendered output (empty markup), instead of rendering it without
identity decoration. -/
theorem unknown_sender_not_rendered (st : ChatState) (m : MessageData)
    (hmem : m ∈ st.messages)
    (hfind : st.users.find? (fun u => u.name == m.«from») = none) :
    m ∈ st.messages ∧
    renderMessage st.users m = none ∧
    none ∈ renderLog st := by
  have hnone : renderMessage st.users m = none := by
    unfold renderMessage
    rw [hfind]
  exact ⟨hmem, hnone, by
    unfold renderLog
    exact hnone ▸ List.mem_map_of_mem (renderMessage st.users) hmem⟩

/-- Witness for C7 amended at a one-message log and an empty roster. -/
theorem unknown_sender_not_rendered_witness :
    (⟨"alice", "hi"⟩ : MessageData) ∈
      (⟨[], [⟨"alice", "hi"⟩]⟩ : ChatState).messages ∧
    renderMessage (⟨[], [⟨"alice", "hi"⟩]⟩ : ChatState).users ⟨"alice", "hi"⟩ =
      none ∧
    none ∈ renderLog ⟨[], [⟨"alice", "hi"⟩]⟩ :=
  unknown_sender_not_rendered ⟨[], [⟨"alice", "hi"⟩]⟩ ⟨"alice", "hi"⟩
    (by simp) (by rfl)

/-- Dispatching one valid `Message` frame appends exactly its decoded
payload to the log and touches nothing else. -/
theorem handleMsg_of_validMessageFrame (r : String) (st : ChatState)
    (h : validMessageFrame r = true) :
    ∃ md, decodeChat r = some md ∧
      handleMsg r st =
        some ({ st with messages := st.messages ++ [md] }, true) := by
  unfold validMessageFrame at h
  cases hdf : decodeFrame r with
  | none => rw [hdf] at h; simp at h
  | some msg =>
    obtain ⟨mt, da, dd⟩ := msg
    rw [hdf] at h
    cases mt with
    | Users => simp at h
    | Register => simp at h
    | Message =>
      cases dd with
      | none => simp at h
      | some d =>
        have hsome : (decodeMessageData d).isSome = true := h
        obtain ⟨md, hmd⟩ := Option.isSome_iff_exists.mp hsome
        refine ⟨md, ?_, ?_⟩
        · simp [decodeChat, hdf, hmd]
        · simp [handleMsg, handleFrame, hdf, hmd]

/-- C5: the message log is append-only.  For every sequence of valid
`Message` frames, handling them all succeeds, the prior log is preserved
as an unchanged prefix, the appended entries are the decoded payloads in
arrival order, and the log grows by exactly the number of
successfully-decoded frames; the roster is untouched. -/
theorem message_log_append_only (frames : List String) (st : ChatState)
    (h : ∀ r ∈ frames, validMessageFrame r = true) :
    ∃ st', runFrames frames st = some st' ∧
      st'.users = st.users ∧
      st'.messages = st.messages ++ frames.filterMap decodeChat ∧
      (frames.filterMap decodeChat).length = frames.length := by
  induction frames generalizing st with
  | nil => exact ⟨st, rfl, rfl, by simp, by simp⟩
  | cons r rest ih =>
    have hr := h r (by simp)
    obtain ⟨md, hmd, hrun⟩ := handleMsg_of_validMessageFrame r st hr
    obtain ⟨st', hrun', hu, hm, hl⟩ :=
      ih { st with messages := st.messages ++ [md] }
        (fun x hx => h x (by simp [hx]))
    refine ⟨st', ?_, ?_, ?_, ?_⟩
    · unfold runFrames
      rw [hrun]
      exact hrun'
    · simpa using hu
    · rw [hm]
      simp [List.filterMap_cons, hmd]
    · simp [List.filterMap_cons, hmd]
      simpa [List.filterMap_cons, hmd] using hl

/-- Witness for C5 at a two-frame sequence of concrete `Message`
frames. -/
theorem message_log_append_only_witness :
    (∀ r ∈
      ["\x7b\"messageType\":\"message\",\"data\":\"\x7b\\\"from\\\":\\\"alice\\\",\\\"message\\\":\\\"hi\\\"\x7d\"\x7d",
       "\x7b\"messageType\":\"message\",\"data\":\"\x7b\\\"from\\\":\\\"bob\\\",\\\"message\\\":\\\"yo\\\"\x7d\"\x7d"],
      validMessageFrame r = true) ∧
    ∃ st', runFrames
      ["\x7b\"messageType\":\"message\",\"data\":\"\x7b\\\"from\\\":\\\"alice\\\",\\\"message\\\":\\\"hi\\\"\x7d\"\x7d",
       "\x7b\"messageType\":\"message\",\"data\":\"\x7b\\\"from\\\":\\\"bob\\\",\\\"message\\\":\\\"yo\\\"\x7d\"\x7d"]
      ⟨[], []⟩ = some st' ∧
      st'.users = (⟨[], []⟩ : ChatState).users ∧
      st'.messages = (⟨[], []⟩ : ChatState).messages ++
        (["\x7b\"messageType\":\"message\",\"data\":\"\x7b\\\"from\\\":\\\"alice\\\",\\\"message\\\":\\\"hi\\\"\x7d\"\x7d",
          "\x7b\"messageType\":\"message\",\"data\":\"\x7b\\\"from\\\":\\\"bob\\\",\\\"message\\\":\\\"yo\\\"\x7d\"\x7d"].filterMap
          decodeChat) ∧
      (["\x7b\"messageType\":\"message\",\"data\":\"\x7b\\\"from\\\":\\\"alice\\\",\\\"message\\\":\\\"hi\\\"\x7d\"\x7d",
        "\x7b\"messageType\":\"message\",\"data\":\"\x7b\\\"from\\\":\\\"bob\\\",\\\"message\\\":\\\"yo\\\"\x7d\"\x7d"].filterMap
        decodeChat).length =
        ["\x7b\"messageType\":\"message\",\"data\":\"\x7b\\\"from\\\":\\\"alice\\\",\\\"message\\\":\\\"hi\\\"\x7d\"\x7d",
         "\x7b\"messageType\":\"message\",\"data\":\"\x7b\\\"from\\\":\\\"bob\\\",\\\"message\\\":\\\"yo\\\"\x7d\"\x7d"].length := by
  have hvalid : ∀ r ∈
      ["\x7b\"messageType\":\"message\",\"data\":\"\x7b\\\"from\\\":\\\"alice\\\",\\\"message\\\":\\\"hi\\\"\x7d\"\x7d",
       "\x7b\"messageType\":\"message\",\"data\":\"\x7b\\\"from\\\":\\\"bob\\\",\\\"message\\\":\\\"yo\\\"\x7d\"\x7d"],
      validMessageFrame r = true := by
    intro r hr
    rcases List.mem_cons.mp hr with h1 | hr'
    · rw [h1]; rfl
    · rcases List.mem_cons.mp hr' with h2 | hr''
      · rw [h2]; rfl
      · exact absurd hr'' (List.not_mem_nil r)
  exact ⟨hvalid, message_log_append_only _ ⟨[], []⟩ hvalid⟩

/-- Decoding a list of string-valued JSON nodes built from a string list
recovers the list. -/
theorem decodeStringListAux_map_str (xs : List String) :
    decodeStringListAux (xs.map Json.str) = some xs := by
  induction xs with
  | nil => rfl
  | cons x rest ih => simp [decodeStringListAux, asString, ih]

/-- Encoding any frame and decoding it back is the identity. -/
theorem decode_encode_id (msg : WebSocketMessage) :
    decodeWebSocketMessage (encodeWebSocketMessage msg) = some msg := by
  obtain ⟨mt, da, dd⟩ := msg
  cases mt <;> cases da <;> cases dd <;>
    simp [encodeWebSocketMessage, decodeWebSocketMessage, msgTypesStr,
      decodeMsgTypes, lookupField, decodeOptField, decodeStringList,
      decodeStringListAux_map_str, asString]

/-- C8: the round-trip law.  For every JSON value that decodes to a
frame, re-encoding that frame and decoding again yields the very same
frame — same discriminant, same payload fields — and in particular the
doubly-encoded inner payload of a `Message` frame decodes to the same
`MessageData` after the round trip. -/
theorem frame_roundtrip (j : Json) (msg : WebSocketMessage)
    (_h : decodeWebSocketMessage j = some msg) :
    ∃ msg', decodeWebSocketMessage (encodeWebSocketMessage msg) = some msg' ∧
      msg' = msg ∧
      msg'.message_type = msg.message_type ∧
      msg'.data_array = msg.data_array ∧
      msg'.data = msg.data ∧
      msg'.data.bind decodeMessageData = msg.data.bind decodeMessageData := by
  exact ⟨msg, decode_encode_id msg, rfl, rfl, rfl, rfl, rfl⟩

/-- Witness for C8 at a concrete `Message` frame carrying a nested JSON
payload. -/
theorem frame_roundtrip_witness :
    ∃ msg', decodeWebSocketMessage
        (encodeWebSocketMessage
          ⟨MsgTypes.Message, none,
            some "\x7b\"from\":\"alice\",\"message\":\"hi\"\x7d"⟩) =
        some msg' ∧
      msg' = (⟨MsgTypes.Message, none,
        some "\x7b\"from\":\"alice\",\"message\":\"hi\"\x7d"⟩ :
          WebSocketMessage) ∧
      msg'.message_type =
        (⟨MsgTypes.Message, none,
          some "\x7b\"from\":\"alice\",\"message\":\"hi\"\x7d"⟩ :
            WebSocketMessage).message_type ∧
      msg'.data_array =
        (⟨MsgTypes.Message, none,
          some "\x7b\"from\":\"alice\",\"message\":\"hi\"\x7d"⟩ :
            WebSocketMessage).data_array ∧
      msg'.data =
        (⟨MsgTypes.Message, none,
          some "\x7b\"from\":\"alice\",\"message\":\"hi\"\x7d"⟩ :
            WebSocketMessage).data ∧
      msg'.data.bind decodeMessageData =
        (⟨MsgTypes.Message, none,
          some "\x7b\"from\":\"alice\",\"message\":\"hi\"\x7d"⟩ :
            WebSocketMessage).data.bind decodeMessageData :=
  frame_roundtrip
    (Json.obj
      [("messageType", Json.str "message"),
       ("data", Json.str "\x7b\"from\":\"alice\",\"message\":\"hi\"\x7d")])
    ⟨MsgTypes.Message, none,
      some "\x7b\"from\":\"alice\",\"message\":\"hi\"\x7d"⟩ (by rfl)
